import Mathlib

/-!
Shallow embedding of `tools/create_pr_or_update_existing_one.py`.

The script is orchestration glue: it shells out to git and performs a few
HTTP calls against the GitHub API.  The embedding records every external
interaction as an `Effect` value, in the order the script performs it, and
keeps the script's pure string computations as Lean functions with the
source's names.  External collaborators are parameters:

* `DepQuery` stands for `check_updated_packages.get_changed_dependencies`
  (the script treats it as a pure query keyed on `all_packages` and
  `base_branch`; `python_version` and `src_dir` are constant at the call
  sites, so they are dropped);
* the body of the open-PR lookup's HTTP response is a `List PrEntry`;
* the process environment is a partial map `Env`.

Python conventions modelled explicitly: `environ.get` returning `None`,
f-string rendering of `None` as the text "None", truthiness of the empty
string, of the empty list and of the integer `0`, and `int()` parsing of a
decimal string (sign plus digits; the script only ever receives canonical
decimals through `PR_NUMBER`).
-/

namespace CreatePrScript

/-- JSON-like values appearing in the request payloads the script sends. -/
inductive JVal where
  | str (s : String)
  | int (n : Int)
  | bool (b : Bool)
  deriving Repr, DecidableEq

/-- One external interaction of the script, in the order performed:
git subprocess calls and HTTP requests. -/
inductive Effect where
  | gitConfigGlobal (key value : String)
  | gitCheckoutB (branch : String)
  | gitAddU
  | gitCommit (message : String)
  | gitPushForce (remote branch : String)
  | httpGet (url : String)
  | httpPost (url : String) (headers : List (String × String))
      (payload : List (String × JVal))
  deriving Repr, DecidableEq

/-- The process environment: `os.environ` as a partial map. -/
def Env : Type := String → Option String

/-- Oracle for `get_changed_dependencies(all_packages, base_branch, ...)`:
first argument is `all_packages`, second the `base_branch`. -/
def DepQuery : Type := Bool → String → List String

/-- `BASE_URL` of the script. -/
def BASE_URL : String := "https://api.github.com"

/-- f-string rendering of an `Optional[str]`: Python renders `None` as the
text "None". -/
def pyStr (o : Option String) : String :=
  match o with
  | none => "None"
  | some s => s

/-- `os.environ.get(key, default)`. -/
def pyGetD (env : Env) (key default : String) : String :=
  match env key with
  | none => default
  | some s => s

/-- Digit accumulator for `pyInt?`: consumes decimal digits, failing on any
other character. -/
def pyDigits? : List Char → Nat → Option Nat
  | [], acc => some acc
  | c :: rest, acc =>
      if c.isDigit then pyDigits? rest (acc * 10 + (c.toNat - 48)) else none

/-- Python `int(s)` on a canonical decimal string (optional sign, then
digits); anything else raises `ValueError`, modelled as `none`.  The script
only parses the `PR_NUMBER` environment value with it. -/
def pyInt? (s : String) : Option Int :=
  match s.data with
  | [] => none
  | '-' :: rest =>
      if rest.isEmpty then none
      else (pyDigits? rest 0).map (fun n => -(n : Int))
  | '+' :: rest =>
      if rest.isEmpty then none
      else (pyDigits? rest 0).map (fun n => (n : Int))
  | cs => (pyDigits? cs 0).map (fun n => (n : Int))

/-! ### The scoped directory change (`cd`)

The working directory is the one piece of process state the git helpers
touch; `cd` is Python's `@contextmanager` around `chdir`.  `PyM ε α` threads
the current working directory and an exception of type `ε`. -/

/-- The current working directory. -/
def Cwd : Type := String

/-- A Python computation: threads the working directory, may raise. -/
def PyM (ε α : Type) : Type := Cwd → Cwd × Except ε α

/-- `os.getcwd()`. -/
def getcwd {ε : Type} : PyM ε Cwd := fun c => (c, Except.ok c)

/-- `os.chdir(path)`. -/
def chdir {ε : Type} (path : Cwd) : PyM ε Unit := fun _ => (path, Except.ok ())

/-- `try: body finally: fin` — `fin` runs whether `body` returns or raises;
an exception from `fin` replaces the result. -/
def tryFinally {ε α : Type} (body : PyM ε α) (fin : PyM ε Unit) : PyM ε α :=
  fun c =>
    let br := body c
    let fr := fin br.1
    match fr.2 with
    | Except.ok _ => (fr.1, br.2)
    | Except.error e => (fr.1, Except.error e)

/-- The `cd` context manager of the script:
`current_dir = getcwd(); try: chdir(path); yield finally: chdir(current_dir)`.
`getcwd` leaves the state unchanged and returns it, and `chdir` cannot raise
in the model, so both are used through their post-states. -/
def cd {ε α : Type} (path : Cwd) (body : PyM ε α) : PyM ε α :=
  fun c0 =>
    let current_dir := (@getcwd ε c0).1
    tryFinally (fun c => body ((@chdir ε path c).1)) (@chdir ε current_dir) c0

/-! ### The script's functions, as effect-trace producers -/

/-- `_setup_git_author()`: the two global `git config` calls. -/
def setup_git_author : List Effect :=
  [Effect.gitConfigGlobal "user.name" "napari-bot",
   Effect.gitConfigGlobal "user.email" "napari-bot@users.noreply.github.com"]

/-- `create_commit(message, branch_name="")`: inside `cd(REPO_DIR)`, checkout
`-B branch_name` when `branch_name` is truthy (non-empty), then
`git add -u` and `git commit -m message`. -/
def create_commit (message branch_name : String) : List Effect :=
  (if branch_name ≠ "" then [Effect.gitCheckoutB branch_name] else [])
    ++ [Effect.gitAddU, Effect.gitCommit message]

/-- `push(branch_name, update=False)`: force-push with `--set-upstream` to
the remote `napari-bot` when `update`, else to `origin`. -/
def push (branch_name : String) (update : Bool) : List Effect :=
  if update then [Effect.gitPushForce "napari-bot" branch_name]
  else [Effect.gitPushForce "origin" branch_name]

/-- `commit_message(branch_name)`: queries the direct changed dependencies
(`all_packages=False`); an empty result (falsy list) yields the fixed
indirect-update message. -/
def commit_message (deps : DepQuery) (branch_name : String) : String :=
  let changed_direct := deps false branch_name
  if changed_direct.isEmpty then "Update indirect dependencies"
  else "Update " ++ String.intercalate ", "
    (changed_direct.map (fun x => "`" ++ x ++ "`"))

/-- `long_description(branch_name)`: queries all changed dependencies
(`all_packages=True`) and formats them. -/
def long_description (deps : DepQuery) (branch_name : String) : String :=
  let all_changed := deps true branch_name
  "Updated packages: " ++ String.intercalate ", "
    (all_changed.map (fun x => "`" ++ x ++ "`"))

/-- One entry of the JSON array returned by the open-PR lookup; the script
only reads its `number` field. -/
structure PrEntry where
  number : Int
  deriving Repr, DecidableEq

/-- `list_pr_for_branch`: returns the first entry's `number` when the
response array is non-empty, `None` otherwise. -/
def list_pr_for_branch (resp : List PrEntry) : Option Int :=
  match resp with
  | [] => none
  | e :: _ => some e.number

/-- The URL `list_pr_for_branch` queries: `org_name` is `repo.split('/')[0]`. -/
def list_pr_url (repo branch_name : String) : String :=
  let org_name := (repo.splitOn "/").headD ""
  BASE_URL ++ "/repos/" ++ repo ++ "/pulls?state=open&head="
    ++ org_name ++ ":" ++ branch_name

/-- `update_own_pr(pr_number, access_token, base_branch, repo)`: POST to
`/repos/{repo}/pulls/{pr_number}` with a title/body payload. -/
def update_own_pr (deps : DepQuery) (pr_number : Int)
    (access_token base_branch repo : String) : Effect :=
  Effect.httpPost (BASE_URL ++ "/repos/" ++ repo ++ "/pulls/" ++ toString pr_number)
    [("Authorization", "token " ++ access_token)]
    [("title", JVal.str (commit_message deps base_branch)),
     ("body", JVal.str (long_description deps base_branch))]

/-- `create_pr(base_branch, new_branch, access_token, repo, source_user="")`:
POST to `/repos/{repo}/pulls`; a truthy `source_user` qualifies the head. -/
def create_pr (deps : DepQuery)
    (base_branch new_branch access_token repo source_user : String) : Effect :=
  Effect.httpPost (BASE_URL ++ "/repos/" ++ repo ++ "/pulls")
    [("Authorization", "token " ++ access_token)]
    [("title", JVal.str (commit_message deps base_branch)),
     ("body", JVal.str (long_description deps base_branch)),
     ("head", JVal.str (if source_user ≠ ""
        then source_user ++ ":" ++ new_branch else new_branch)),
     ("base", JVal.str base_branch),
     ("maintainer_can_modify", JVal.bool true)]

/-- The working-branch name of the scheduled/dispatch path (lines 122-125 of
the source): `"auto-update-dependencies"` for `"main"`, the suffixed form
otherwise. -/
def new_branch_name (branch_name : String) : String :=
  if branch_name = "main" then "auto-update-dependencies"
  else "auto-update-dependencies-" ++ branch_name

/-- The effective repository of `create_pr_with_push`: a falsy (empty) `repo`
argument falls back to `GITHUB_REPOSITORY`, defaulting to "napari/napari". -/
def resolved_repo (repo : String) (env : Env) : String :=
  if repo = "" then pyGetD env "GITHUB_REPOSITORY" "napari/napari" else repo

/-- `create_pr_with_push(branch_name, access_token, repo="")`: checkout the
derived branch, commit, force-push to origin, look the branch's open PRs up,
then either update the found PR (walrus-truthy `pr_number`) or create one. -/
def create_pr_with_push (deps : DepQuery) (pr_list : List PrEntry)
    (branch_name access_token repo : String) (env : Env) : List Effect :=
  let nb := new_branch_name branch_name
  let repo := resolved_repo repo env
  [Effect.gitCheckoutB nb]
    ++ create_commit (commit_message deps branch_name) ""
    ++ push nb false
    ++ [Effect.httpGet (list_pr_url repo nb)]
    ++ (match list_pr_for_branch pr_list with
        | some pr_number =>
            if pr_number ≠ 0 then
              [update_own_pr deps pr_number access_token branch_name repo]
            else
              [create_pr deps branch_name nb access_token repo ""]
        | none => [create_pr deps branch_name nb access_token repo ""])

/-- `add_comment_to_pr(pull_request_number, message, access_token, repo)`:
POST to the issue-comments endpoint.  The Authorization header is built from
the `GITHUB_TOKEN` environment value, not from `access_token`. -/
def add_comment_to_pr (env : Env) (pull_request_number : Int)
    (message access_token repo : String) : Effect :=
  Effect.httpPost
    (BASE_URL ++ "/repos/" ++ repo ++ "/issues/"
      ++ toString pull_request_number ++ "/comments")
    [("Authorization", "token " ++ pyStr (env "GITHUB_TOKEN"))]
    [("body", JVal.str message)]

/-- `get_pr_number()`: `int(environ.get("PR_NUMBER"))`; `None` or a
non-decimal string raises, modelled as `none`. -/
def get_pr_number (env : Env) : Option Int :=
  match env "PR_NUMBER" with
  | none => none
  | some s => pyInt? s

/-- The comment body `update_pr` assembles.  Line 239 of the source is a
plain (non-f) string, so its run-id segment stays uninterpolated text. -/
def comment_content (branch_name : String) (env : Env) (deps : DepQuery) : String :=
  let target_repo := pyStr (env "FULL_NAME")
  let nb := "auto-update-dependencies/" ++ target_repo ++ "/" ++ branch_name
  long_description deps ("origin/" ++ branch_name)
    ++ "\n\nThis workflow cannot automatically update your PR or create PR to your repository. "
    ++ "But you could open such PR by clicking the link:"
    ++ ("https://github.com/" ++ target_repo ++ "/compare/" ++ branch_name
        ++ "...napari-bot:" ++ nb ++ ".")
    ++ "\n\n"
    ++ "You could also get the updated files from the "
    ++ ("https://github.com/napari-bot/napari/tree/" ++ nb ++ "/resources/constraints.")
    ++ "Or ask the maintainers to provide you content of the constraints artifact."
    ++ "from the run https://github.com/PartSeg/napari/actions/runs/\x7bos.environ.get('GITHUB_RUN_ID')\x7d"
    ++ "\n\n"
    ++ "To open PR with this changes please click this link: "

/-- `update_pr(branch_name, access_token, bot_access_token)`: read the PR
number, commit to the bot-namespaced branch, force-push it to the bot remote,
then post the explanatory comment.  A missing or malformed `PR_NUMBER`
raises before any effect. -/
def update_pr (branch_name access_token bot_access_token : String)
    (env : Env) (deps : DepQuery) : Except String (List Effect) :=
  match get_pr_number env with
  | none => Except.error "int() of PR_NUMBER failed"
  | some pr_number =>
      let target_repo := pyStr (env "FULL_NAME")
      let nb := "auto-update-dependencies/" ++ target_repo ++ "/" ++ branch_name
      Except.ok
        (create_commit (commit_message deps branch_name) nb
          ++ push nb true
          ++ [add_comment_to_pr env pr_number
                (comment_content branch_name env deps) access_token
                (pyGetD env "GITHUB_REPOSITORY" "napari/napari")])

/-- `main()`: read the event and branch from the environment, configure the
git author, then dispatch on the event name; an unknown event raises
`ValueError`. -/
def main (env : Env) (deps : DepQuery) (pr_list : List PrEntry) :
    List Effect × Except String Unit :=
  match env "GITHUB_EVENT_NAME" with
  | none => ([], Except.error "KeyError: GITHUB_EVENT_NAME")
  | some event_name =>
      match env "BRANCH" with
      | none => ([], Except.error "KeyError: BRANCH")
      | some branch_name =>
          let access_token := pyStr (env "GHA_TOKEN")
          let bot_access_token := pyStr (env "GHA_TOKEN_2")
          if event_name = "schedule" ∨ event_name = "workflow_dispatch" then
            (setup_git_author
              ++ create_pr_with_push deps pr_list branch_name access_token "" env,
             Except.ok ())
          else if event_name = "issue_comment" ∨ event_name = "pull_request" then
            match update_pr branch_name access_token bot_access_token env deps with
            | Except.ok effs => (setup_git_author ++ effs, Except.ok ())
            | Except.error e => (setup_git_author, Except.error e)
          else
            (setup_git_author,
             Except.error ("Unknown event name: " ++ event_name))

/-- An effect belonging to one of the two dispatch flows (branch/commit/push
or HTTP), as opposed to the author-configuration setup. -/
def is_flow_effect : Effect → Bool
  | Effect.gitConfigGlobal _ _ => false
  | _ => true

/-- `sub` occurs as a contiguous substring of `s`. -/
def strContains (s sub : String) : Prop :=
  ∃ pre post, s = pre ++ sub ++ post

/-- Recursive characterisation of the backtick-quote-and-comma-join
formatting (", ".join of f-strings) used by the claims. -/
def backtickJoin : List String → String
  | [] => ""
  | [x] => "`" ++ x ++ "`"
  | x :: y :: rest => ("`" ++ x ++ "`") ++ ", " ++ backtickJoin (y :: rest)

/-- Concrete dependency oracle for witnesses: no changed dependencies. -/
def demoDeps : DepQuery := fun _ _ => []

/-- Concrete dependency oracle for witnesses: one direct, two total. -/
def demoDeps2 : DepQuery := fun all _ =>
  if all then ["numpy", "scipy"] else ["numpy"]

/-- Empty concrete environment for witnesses. -/
def demoEnv : Env := fun _ => none

/-! ### Helper lemmas -/

/-- The accumulator of `String.intercalate.go` distributes over `++`. -/
theorem intercalate_go_append (s : String) (l : List String) :
    ∀ acc1 acc2 : String,
      String.intercalate.go (acc1 ++ acc2) s l
        = acc1 ++ String.intercalate.go acc2 s l := by
  induction l with
  | nil => intro acc1 acc2; simp [String.intercalate.go]
  | cons a as ih =>
      intro acc1 acc2
      simp only [String.intercalate.go]
      rw [String.append_assoc, String.append_assoc, ih, String.append_assoc acc2 s a]

/-- Unfolding step of `String.intercalate` on a list of length at least two. -/
theorem intercalate_cons_cons (s a b : String) (l : List String) :
    String.intercalate s (a :: b :: l)
      = a ++ s ++ String.intercalate s (b :: l) := by
  show String.intercalate.go a s (b :: l) = a ++ s ++ String.intercalate.go b s l
  simp only [String.intercalate.go]
  exact intercalate_go_append s l (a ++ s) b

/-- The comma-join of backtick-quoted names equals its recursive
characterisation `backtickJoin`. -/
theorem intercalate_map_backtick (l : List String) :
    String.intercalate ", " (l.map (fun x => "`" ++ x ++ "`")) = backtickJoin l := by
  induction l with
  | nil => rfl
  | cons x xs ih =>
      cases xs with
      | nil => rfl
      | cons y r =>
          rw [List.map_cons, List.map_cons, intercalate_cons_cons]
          rw [List.map_cons] at ih
          rw [ih]
          simp [backtickJoin]

/-- A string whose right append part is non-empty is non-empty. -/
theorem append_right_ne_empty (a b : String) (hb : b.length ≠ 0) : a ++ b ≠ "" := by
  intro h
  have h2 := congrArg String.length h
  rw [String.length_append] at h2
  simp only [String.length_empty] at h2
  omega

/-- `create_commit` with a truthy (non-empty) branch name checks the branch
out first. -/
theorem create_commit_named (message b : String) (hb : b ≠ "") :
    create_commit message b
      = [Effect.gitCheckoutB b, Effect.gitAddU, Effect.gitCommit message] := by
  simp [create_commit, hb]

/-! ### Claims -/

/-- C2: in the scheduled/dispatch path the first git action checks out the
derived working branch; that name is exactly "auto-update-dependencies" when
the input branch is "main", and "auto-update-dependencies-" ++ b for every
other branch name b. -/
theorem new_branch_name_spec (deps : DepQuery) (pr_list : List PrEntry)
    (tok repo : String) (env : Env) (b : String) :
    (create_pr_with_push deps pr_list b tok repo env).head?
      = some (Effect.gitCheckoutB (new_branch_name b))
    ∧ new_branch_name "main" = "auto-update-dependencies"
    ∧ (b ≠ "main" → new_branch_name b = "auto-update-dependencies-" ++ b) := by
  refine ⟨rfl, rfl, fun h => ?_⟩
  simp [new_branch_name, h]

/-- C3: whenever the direct-changed-dependency query (all_packages=False)
returns an empty sequence, commit_message returns exactly the literal
"Update indirect dependencies", for every branch name. -/
theorem commit_message_empty_direct (deps : DepQuery) (b : String)
    (h : deps false b = []) :
    commit_message deps b = "Update indirect dependencies" := by
  simp [commit_message, h]

/-- Witness for C3 at the concrete oracle returning no direct changes. -/
theorem commit_message_empty_direct_witness :
    commit_message demoDeps "main" = "Update indirect dependencies" :=
  commit_message_empty_direct demoDeps "main" rfl

/-- C4: for every non-empty direct-changed-dependency sequence, commit_message
returns "Update " followed by the names each wrapped in backticks and joined
by ", ", preserving input order (backtickJoin walks the list front to back). -/
theorem commit_message_nonempty_direct (deps : DepQuery) (b p : String)
    (rest : List String) (h : deps false b = p :: rest) :
    commit_message deps b = "Update " ++ backtickJoin (p :: rest) := by
  have hj := intercalate_map_backtick (p :: rest)
  rw [List.map_cons] at hj
  simp [commit_message, h, hj]

/-- Witness for C4 at a concrete oracle with one direct change. -/
theorem commit_message_nonempty_direct_witness :
    commit_message demoDeps2 "main" = "Update " ++ backtickJoin ["numpy"] :=
  commit_message_nonempty_direct demoDeps2 "main" "numpy" [] rfl

/-- C5: for every branch name and every all-changed-dependency query result,
long_description returns "Updated packages: " followed by the backtick-quoted
names joined by ", ". -/
theorem long_description_spec (deps : DepQuery) (b : String) :
    long_description deps b = "Updated packages: " ++ backtickJoin (deps true b) := by
  simp [long_description, intercalate_map_backtick]

/-- C9: add_comment_to_pr ignores its access_token parameter entirely — the
request it sends (URL, headers, payload) is the same for any two token
values, because the Authorization header reads GITHUB_TOKEN from the
environment. -/
theorem add_comment_to_pr_token_independent (env : Env) (n : Int)
    (msg t1 t2 repo : String) :
    add_comment_to_pr env n msg t1 repo = add_comment_to_pr env n msg t2 repo := rfl

/-- C8: the scoped directory change restores the working directory to its
prior value after the body completes, both when the body returns normally
and when it raises; the body's outcome passes through unchanged. -/
theorem cd_restores_cwd {ε α : Type} (path : Cwd) (body : PyM ε α) (c0 : Cwd) :
    (cd path body c0).1 = c0
    ∧ (∀ c1 a, body path = (c1, Except.ok a)
        → cd path body c0 = (c0, Except.ok a))
    ∧ (∀ c1 e, body path = (c1, Except.error e)
        → cd path body c0 = (c0, Except.error e)) := by
  have key : cd path body c0 = (c0, (body path).2) := rfl
  refine ⟨by rw [key], fun c1 a h => ?_, fun c1 e h => ?_⟩
  · rw [key, h]
  · rw [key, h]

/-- C7: for every event name outside the two recognized sets, main reports
the unknown-event error and the only effects performed are the author-setup
git config calls — no branch, commit, push or HTTP effect of either flow. -/
theorem main_unknown_event (env : Env) (deps : DepQuery) (pr_list : List PrEntry)
    (event b : String)
    (h1 : env "GITHUB_EVENT_NAME" = some event)
    (h2 : env "BRANCH" = some b)
    (h3 : event ≠ "schedule") (h4 : event ≠ "workflow_dispatch")
    (h5 : event ≠ "issue_comment") (h6 : event ≠ "pull_request") :
    (main env deps pr_list).2 = Except.error ("Unknown event name: " ++ event)
    ∧ ∀ e ∈ (main env deps pr_list).1, is_flow_effect e = false := by
  have hm : main env deps pr_list
      = (setup_git_author, Except.error ("Unknown event name: " ++ event)) := by
    simp [main, h1, h2, h3, h4, h5, h6]
  rw [hm]
  refine ⟨rfl, ?_⟩
  show ∀ e ∈ setup_git_author, is_flow_effect e = false
  decide

/-- Concrete environment for the C7 witness: an unrecognized "push" event. -/
def demoEnv7 : Env := fun k =>
  if k = "GITHUB_EVENT_NAME" then some "push"
  else if k = "BRANCH" then some "main" else none

/-- Witness for C7 at the unrecognized event name "push". -/
theorem main_unknown_event_witness :
    (main demoEnv7 demoDeps []).2 = Except.error ("Unknown event name: " ++ "push")
    ∧ ∀ e ∈ (main demoEnv7 demoDeps []).1, is_flow_effect e = false :=
  main_unknown_event demoEnv7 demoDeps [] "push" "main" rfl rfl
    (by decide) (by decide) (by decide) (by decide)

/-- C1 (amended): after the open-PR lookup, an empty response leads to the
create-PR HTTP call and to no update call; a response whose first entry has a
nonzero number leads to the update call for that number and to no create
call.  (A first entry with number 0 is falsy under the walrus test and is
routed to creation; see the counterexample.) -/
theorem create_pr_with_push_dispatch (deps : DepQuery) (pr_list : List PrEntry)
    (b tok repo : String) (env : Env) :
    (pr_list = [] →
        create_pr deps b (new_branch_name b) tok (resolved_repo repo env) ""
          ∈ create_pr_with_push deps pr_list b tok repo env
        ∧ ∀ n : Int, update_own_pr deps n tok b (resolved_repo repo env)
          ∉ create_pr_with_push deps pr_list b tok repo env)
    ∧ (∀ e rest, pr_list = e :: rest → e.number ≠ 0 →
        update_own_pr deps e.number tok b (resolved_repo repo env)
          ∈ create_pr_with_push deps pr_list b tok repo env
        ∧ create_pr deps b (new_branch_name b) tok (resolved_repo repo env) ""
          ∉ create_pr_with_push deps pr_list b tok repo env) := by
  constructor
  · rintro rfl
    constructor
    · simp [create_pr_with_push, create_commit, push, list_pr_for_branch]
    · intro n
      simp [create_pr_with_push, create_commit, push, list_pr_for_branch,
        update_own_pr, create_pr]
  · rintro e rest rfl hz
    constructor
    · simp [create_pr_with_push, create_commit, push, list_pr_for_branch, hz]
    · simp [create_pr_with_push, create_commit, push, list_pr_for_branch, hz,
        update_own_pr, create_pr]

/-- C1 counterexample: a non-empty lookup response whose first entry carries
number 0 is not updated — the update-metadata call for PR 0 is absent and the
create-PR call is performed instead. -/
theorem create_pr_with_push_zero_number_not_updated :
    update_own_pr demoDeps 0 "tok" "main" "napari/napari"
      ∉ create_pr_with_push demoDeps [⟨0⟩] "main" "tok" "napari/napari" demoEnv
    ∧ create_pr demoDeps "main" "auto-update-dependencies" "tok" "napari/napari" ""
      ∈ create_pr_with_push demoDeps [⟨0⟩] "main" "tok" "napari/napari" demoEnv := by
  decide

/-- C6: on the pull_request flow with branch "feature-x" and environment PR
number "42", update_pr commits to the branch
auto-update-dependencies/repo/feature-x (repo from FULL_NAME), force-pushes
it to the napari-bot remote, and then posts a comment to issue 42 whose body
contains the manual compare link referencing that branch name. -/
theorem update_pr_feature_branch_flow (repo tok btok : String) (env : Env)
    (deps : DepQuery)
    (hfull : env "FULL_NAME" = some repo)
    (hpr : env "PR_NUMBER" = some "42") :
    update_pr "feature-x" tok btok env deps = Except.ok
      [Effect.gitCheckoutB ("auto-update-dependencies/" ++ repo ++ "/" ++ "feature-x"),
       Effect.gitAddU,
       Effect.gitCommit (commit_message deps "feature-x"),
       Effect.gitPushForce "napari-bot"
         ("auto-update-dependencies/" ++ repo ++ "/" ++ "feature-x"),
       Effect.httpPost
         (BASE_URL ++ "/repos/" ++ pyGetD env "GITHUB_REPOSITORY" "napari/napari"
           ++ "/issues/" ++ "42" ++ "/comments")
         [("Authorization", "token " ++ pyStr (env "GITHUB_TOKEN"))]
         [("body", JVal.str (comment_content "feature-x" env deps))]]
    ∧ strContains (comment_content "feature-x" env deps)
        ("https://github.com/" ++ repo ++ "/compare/" ++ "feature-x"
          ++ "...napari-bot:"
          ++ ("auto-update-dependencies/" ++ repo ++ "/" ++ "feature-x")) := by
  have htr : pyStr (env "FULL_NAME") = repo := by rw [hfull]; rfl
  have h42 : get_pr_number env = some 42 := by
    unfold get_pr_number
    rw [hpr]
    decide
  have ht : toString (42 : Int) = "42" := by decide
  have hne : ("auto-update-dependencies/" ++ repo ++ "/" ++ "feature-x" : String) ≠ "" :=
    append_right_ne_empty _ "feature-x" (by decide)
  constructor
  · simp only [update_pr, h42, htr]
    simp only [create_commit_named _ _ hne, push, add_comment_to_pr, ht]
    simp [String.append_assoc]
  · refine ⟨long_description deps ("origin/" ++ "feature-x")
        ++ "\n\nThis workflow cannot automatically update your PR or create PR to your repository. "
        ++ "But you could open such PR by clicking the link:",
      "." ++ "\n\n"
        ++ "You could also get the updated files from the "
        ++ ("https://github.com/napari-bot/napari/tree/"
            ++ ("auto-update-dependencies/" ++ repo ++ "/" ++ "feature-x")
            ++ "/resources/constraints.")
        ++ "Or ask the maintainers to provide you content of the constraints artifact."
        ++ "from the run https://github.com/PartSeg/napari/actions/runs/\x7bos.environ.get('GITHUB_RUN_ID')\x7d"
        ++ "\n\n"
        ++ "To open PR with this changes please click this link: ", ?_⟩
    simp only [comment_content, htr, String.append_assoc]

/-- Concrete environment for the C6 witness. -/
def demoEnv6 : Env := fun k =>
  if k = "FULL_NAME" then some "user/napari"
  else if k = "PR_NUMBER" then some "42" else none

/-- Witness for C6 at a concrete fork repository and environment. -/
theorem update_pr_feature_branch_flow_witness :
    update_pr "feature-x" "tok" "btok" demoEnv6 demoDeps = Except.ok
      [Effect.gitCheckoutB ("auto-update-dependencies/" ++ "user/napari" ++ "/" ++ "feature-x"),
       Effect.gitAddU,
       Effect.gitCommit (commit_message demoDeps "feature-x"),
       Effect.gitPushForce "napari-bot"
         ("auto-update-dependencies/" ++ "user/napari" ++ "/" ++ "feature-x"),
       Effect.httpPost
         (BASE_URL ++ "/repos/" ++ pyGetD demoEnv6 "GITHUB_REPOSITORY" "napari/napari"
           ++ "/issues/" ++ "42" ++ "/comments")
         [("Authorization", "token " ++ pyStr (demoEnv6 "GITHUB_TOKEN"))]
         [("body", JVal.str (comment_content "feature-x" demoEnv6 demoDeps))]]
    ∧ strContains (comment_content "feature-x" demoEnv6 demoDeps)
        ("https://github.com/" ++ "user/napari" ++ "/compare/" ++ "feature-x"
          ++ "...napari-bot:"
          ++ ("auto-update-dependencies/" ++ "user/napari" ++ "/" ++ "feature-x")) :=
  update_pr_feature_branch_flow "user/napari" "tok" "btok" demoEnv6 demoDeps rfl rfl

/-- C10: the comment body update_pr posts contains, verbatim, the
uninterpolated text "\x7bos.environ.get('GITHUB_RUN_ID')\x7d" after the
run-URL prefix — the source builds that segment from a plain string, not an
f-string — and the body of the posted comment is exactly comment_content. -/
theorem update_pr_posts_literal_run_id (branch tok btok : String) (env : Env)
    (deps : DepQuery) :
    strContains (comment_content branch env deps)
      "from the run https://github.com/PartSeg/napari/actions/runs/\x7bos.environ.get('GITHUB_RUN_ID')\x7d"
    ∧ ∀ effs, update_pr branch tok btok env deps = Except.ok effs →
        ∃ url hdrs, Effect.httpPost url hdrs
          [("body", JVal.str (comment_content branch env deps))] ∈ effs := by
  constructor
  · refine ⟨long_description deps ("origin/" ++ branch)
        ++ "\n\nThis workflow cannot automatically update your PR or create PR to your repository. "
        ++ "But you could open such PR by clicking the link:"
        ++ ("https://github.com/" ++ pyStr (env "FULL_NAME") ++ "/compare/" ++ branch
            ++ "...napari-bot:"
            ++ ("auto-update-dependencies/" ++ pyStr (env "FULL_NAME") ++ "/" ++ branch)
            ++ ".")
        ++ "\n\n"
        ++ "You could also get the updated files from the "
        ++ ("https://github.com/napari-bot/napari/tree/"
            ++ ("auto-update-dependencies/" ++ pyStr (env "FULL_NAME") ++ "/" ++ branch)
            ++ "/resources/constraints.")
        ++ "Or ask the maintainers to provide you content of the constraints artifact.",
      "\n\n" ++ "To open PR with this changes please click this link: ", ?_⟩
    simp only [comment_content, String.append_assoc]
  · intro effs h
    simp only [update_pr] at h
    cases hn : get_pr_number env with
    | none =>
        rw [hn] at h
        exact Except.noConfusion h
    | some n =>
        rw [hn] at h
        simp only [Except.ok.injEq] at h
        refine ⟨BASE_URL ++ "/repos/" ++ pyGetD env "GITHUB_REPOSITORY" "napari/napari"
            ++ "/issues/" ++ toString n ++ "/comments",
          [("Authorization", "token " ++ pyStr (env "GITHUB_TOKEN"))], ?_⟩
        rw [← h]
        simp [create_commit, push, add_comment_to_pr]

end CreatePrScript
